import Mathlib

/-!
Verification of the gomoose static file server (src/main.go).

The development shallowly embeds the TLS identity provisioning and
key-access-guard logic of `main.go`: path manipulation mirrors Go's
`path/filepath` for slash-separated (Unix) paths, the request guard mirrors
`protectedFileHandler`, the SSL branch of `Server.Run` is embedded as a
function over an explicit environment (file-system contents, success of the
fallible crypto and I/O steps), and `generateSelfSignedCert` is embedded as a
function of the entropy it draws and the clock it reads.
-/

namespace Gomoose

/-! ### Path primitives (Go `path/filepath`, Unix separators) -/

/-- Splits a character list on the `/` separator, keeping empty segments,
mirroring the segment structure that Go's `filepath.Clean` walks over. -/
def splitSlash : List Char → List (List Char)
  | [] => [[]]
  | c :: cs =>
    let r := splitSlash cs
    if c = '/' then [] :: r
    else
      match r with
      | s :: ss => (c :: s) :: ss
      | [] => [[c]]

/-- The `..` path segment. -/
def dotdot : List Char := ['.', '.']

/-- The `.` path segment. -/
def dotSeg : List Char := ['.']

/-- One step of `filepath.Clean`'s segment processing: empty and `.` segments
are dropped, `..` pops a previously emitted segment when one is available
(never popping past the root of a rooted path, and accumulating leading `..`s
for relative paths), and any other segment is emitted. -/
def cleanStep (rooted : Bool) (stack : List (List Char)) (seg : List Char) :
    List (List Char) :=
  if seg = [] then stack
  else if seg = dotSeg then stack
  else if seg = dotdot then
    match stack with
    | t :: rest => if t = dotdot then seg :: stack else rest
    | [] => if rooted then [] else [dotdot]
  else seg :: stack

/-- Joins segments back together with `/` separators. -/
def intercalateSlash : List (List Char) → List Char
  | [] => []
  | [s] => s
  | s :: rest => s ++ '/' :: intercalateSlash rest

/-- Embedding of Go `filepath.Clean` for Unix paths, used by
`protectedFileHandler` (src/main.go line 141) and by `filepath.Abs`/`Join`:
collapses repeated separators, drops `.` segments, resolves `..` segments
(never above the root for rooted paths), returns `.` for an empty result. -/
def filepathClean (p : String) : String :=
  if p = "" then "."
  else
    let cs := p.data
    let rooted : Bool := match cs with | '/' :: _ => true | _ => false
    let stack := (splitSlash cs).foldl (cleanStep rooted) []
    let body := intercalateSlash stack.reverse
    if rooted then String.mk ('/' :: body)
    else if body = [] then "."
    else String.mk body

/-- Embedding of Go `strings.HasPrefix`: plain string-prefix test. -/
def hasPrefix (s pre : String) : Bool :=
  pre.data.isPrefixOf s.data

/-- Embedding of Go `strings.HasSuffix`: plain string-suffix test. -/
def hasSuffix (s suf : String) : Bool :=
  suf.data.isSuffixOf s.data

/-- Embedding of Go `filepath.IsAbs` for Unix paths. -/
def isAbs (p : String) : Bool :=
  match p.data with
  | '/' :: _ => true
  | _ => false

/-- Embedding of Go `filepath.Join` for two elements (src/main.go line 169):
empty elements are skipped, the rest are joined with `/` and cleaned; all
elements empty gives the empty string. -/
def filepathJoin (a b : String) : String :=
  if a = "" then
    if b = "" then "" else filepathClean b
  else if b = "" then filepathClean a
  else filepathClean (a ++ "/" ++ b)

/-- Embedding of Go `filepath.Abs` (src/main.go line 171): an absolute path is
cleaned, a relative one is joined onto the working directory. -/
def filepathAbs (cwd p : String) : String :=
  if isAbs p then filepathClean p else filepathJoin cwd p

/-! ### The key-access guard -/

/-- Outcome of one request through the guard: respond 404, or hand the
request to the wrapped static-file handler. -/
inductive HandlerAction
  | notFound
  | delegate
  deriving DecidableEq, Repr

/-- Embedding of `protectedFileHandler` (src/main.go lines 138-148): clean the
request's URL path, and when a blocked path is configured and the cleaned
request path is a literal suffix of it, answer not-found; otherwise delegate
to the wrapped handler. -/
def protectedFileHandler (blockedPath reqPath : String) : HandlerAction :=
  if blockedPath != "" && hasSuffix blockedPath (filepathClean reqPath) then
    .notFound
  else .delegate

/-- Modelled from the spec: the "normalized absolute resolution" of a request
path against the served root — the file the standard static-file handler
(`http.FileServer(http.Dir root)`, outside src/) would resolve the request to:
the root joined with the request path cleaned as a rooted path. -/
def resolvedRequestPath (root req : String) : String :=
  filepathJoin root (filepathClean ("/" ++ req))

/-! ### Configuration -/

/-- Embedding of the `Config` struct (src/main.go lines 26-38). -/
structure Config where
  host : String
  sslHost : String
  port : Int
  sslPort : Int
  noHTTP : Bool
  useSSL : Bool
  noSSL : Bool
  dir : String
  sslCert : String
  sslKey : String
  saveKeys : Bool
  deriving Repr

/-- Embedding of `Config.Validate` (src/main.go lines 71-81): `-nossl` forces
SSL off and zeroes the SSL port; otherwise SSL is enabled exactly when the
SSL port is positive. -/
def Config.validate (c : Config) : Config :=
  if c.noSSL then { c with useSSL := false, sslPort := 0 }
  else { c with useSSL := decide (c.sslPort > 0) }

/-! ### Guard activation in `Server.Run` -/

/-- Embedding of the key path the guard compares against (src/main.go lines
167-171): a relative `SSLKey` is joined onto the served directory's absolute
path, and the result is made absolute against the working directory. -/
def guardKeyPath (cwd absDir sslKey : String) : String :=
  filepathAbs cwd (if isAbs sslKey then sslKey else filepathJoin absDir sslKey)

/-- Embedding of the guard-activation step of `Server.Run` (src/main.go lines
165-175): with SSL enabled, the blocked-file reference is set to the key's
absolute path exactly when that path has the served directory's absolute path
as a plain string prefix; otherwise (and always without SSL) it stays empty. -/
def computeBlockedFile (useSSL : Bool) (cwd absDir sslKey : String) : String :=
  if useSSL then
    if hasPrefix (guardKeyPath cwd absDir sslKey) absDir then
      guardKeyPath cwd absDir sslKey
    else ""
  else ""

/-! ### Identity provisioning (the SSL branch of `Server.Run`) -/

/-- What `os.Stat` can find at a path, as far as `fileExists` inspects it. -/
inductive FileKind
  | regular
  | directory
  | missing
  deriving DecidableEq, Repr

/-- Embedding of `fileExists` (src/main.go lines 292-295): `os.Stat` succeeds
and the target is not a directory. -/
def fileExists (fs : String → FileKind) (path : String) : Bool :=
  match fs path with
  | .regular => true
  | .directory => false
  | .missing => false

/-- Which branch of the provisioning step produced the active identity. -/
inductive IdentitySource
  | loaded
  | generated
  deriving DecidableEq, Repr

/-- A file write attempted by the persistence step: target path and the
permission bits passed to `os.WriteFile`. -/
structure FileWrite where
  path : String
  perm : Nat
  deriving DecidableEq, Repr

/-- Outcome of the SSL branch of `Server.Run`: one of the three fatal errors,
or a serving state recording the identity's source, how many persistence
warnings were logged, and which file writes were attempted. -/
inductive RunSSLResult
  | fatalLoadError
  | fatalGenerateError
  | fatalParseError
  | serving (source : IdentitySource) (warningCount : Nat)
      (attemptedWrites : List FileWrite)
  deriving DecidableEq, Repr

/-- Environment for the SSL branch: the file system visible to `os.Stat`,
and whether each fallible step (`tls.LoadX509KeyPair`,
`generateSelfSignedCert`, `tls.X509KeyPair`, the two `os.WriteFile` calls)
succeeds. -/
structure SSLEnv where
  fs : String → FileKind
  loadOk : Bool
  genOk : Bool
  parseOk : Bool
  certWriteOk : Bool
  keyWriteOk : Bool

/-- Embedding of the SSL branch of `Server.Run` (src/main.go lines 203-255):
when both cert and key exist as regular files they are loaded (a load failure
is fatal, with no fallback to generation); otherwise a self-signed identity is
generated in memory (entropy or parse failures are fatal), and when
`SaveKeys` is set the cert is written with mode 0644 and the key with mode
0600, each write failure producing a logged warning but never an error. -/
def runSSL (cfg : Config) (env : SSLEnv) : RunSSLResult :=
  if fileExists env.fs cfg.sslCert && fileExists env.fs cfg.sslKey then
    if env.loadOk then .serving .loaded 0 [] else .fatalLoadError
  else
    if env.genOk then
      if env.parseOk then
        if cfg.saveKeys then
          .serving .generated
            ((if env.certWriteOk then 0 else 1) +
              (if env.keyWriteOk then 0 else 1))
            [⟨cfg.sslCert, 0o644⟩, ⟨cfg.sslKey, 0o600⟩]
        else .serving .generated 0 []
      else .fatalParseError
    else .fatalGenerateError

/-! ### Self-signed certificate generation -/

/-- Go `x509.KeyUsageDigitalSignature` (bit 0). -/
def keyUsageDigitalSignature : Nat := 1

/-- Go `x509.KeyUsageKeyEncipherment` (bit 2). -/
def keyUsageKeyEncipherment : Nat := 4

/-- Go `x509.ExtKeyUsageServerAuth`. -/
def extKeyUsageServerAuth : Nat := 1

/-- Nanoseconds in a day (`24 * time.Hour` in Go's clock units). -/
def nanosPerDay : Nat := 24 * 60 * 60 * 1000000000

/-- The fields of the `x509.Certificate` template filled in by
`generateSelfSignedCert` (src/main.go lines 105-116); `isCA` is the zero
value of the unset `IsCA` field. Times are Go clock nanoseconds. -/
structure CertTemplate where
  serialNumber : Nat
  subjectOrganization : List String
  notBefore : Nat
  notAfter : Nat
  keyUsage : Nat
  extKeyUsage : List Nat
  basicConstraintsValid : Bool
  isCA : Bool
  dnsNames : List String
  deriving DecidableEq, Repr

/-- A generated identity: the curve the key pair lives on, the key material
drawn from the entropy source, the certificate template, and the PEM block
types of the two encoded artifacts. -/
structure GeneratedIdentity where
  curveName : String
  privateKeyMaterial : Nat
  cert : CertTemplate
  certPEMBlockType : String
  keyPEMBlockType : String
  deriving DecidableEq, Repr

/-- Embedding of `generateSelfSignedCert` (src/main.go lines 92-135). The
entropy drawn from `crypto/rand` for the P-256 key and for `rand.Int`'s
uniform draw from `[0, 1<<128)` is passed as explicit inputs, and the value
`time.Now()` reads is the explicit clock input. -/
def generateSelfSignedCert (randKeyMaterial randSerial now : Nat) :
    GeneratedIdentity :=
  { curveName := "P-256"
    privateKeyMaterial := randKeyMaterial
    cert :=
      { serialNumber := randSerial % 2 ^ 128
        subjectOrganization := ["Gomoose Self-Signed"]
        notBefore := now
        notAfter := now + 365 * nanosPerDay
        keyUsage := keyUsageKeyEncipherment ||| keyUsageDigitalSignature
        extKeyUsage := [extKeyUsageServerAuth]
        basicConstraintsValid := true
        isCA := false
        dnsNames := ["localhost"] }
    certPEMBlockType := "CERTIFICATE"
    keyPEMBlockType := "EC PRIVATE KEY" }

/-! ### Concrete sample environments used by the witness checks -/

/-- A file system on which every path is a regular file. -/
def fsAllRegular : String → FileKind := fun _ => .regular

/-- A file system holding only the default certificate file, so the default
key file is missing. -/
def fsCertOnly : String → FileKind :=
  fun p => if p = "cert.crt" then .regular else .missing

/-- The default configuration (src/main.go lines 40-54) after validation:
SSL on port 443 with the default cert/key file names, keys not persisted. -/
def cfgDefault : Config :=
  { host := "", sslHost := "", port := 80, sslPort := 443, noHTTP := false,
    useSSL := true, noSSL := false, dir := ".", sslCert := "cert.crt",
    sslKey := "cert.key", saveKeys := false }

/-- The default configuration with `-savekeys` set. -/
def cfgSave : Config := { cfgDefault with saveKeys := true }

/-- An environment where both files exist but loading them fails. -/
def envLoadFail : SSLEnv :=
  { fs := fsAllRegular, loadOk := false, genOk := true, parseOk := true,
    certWriteOk := true, keyWriteOk := true }

/-- An environment where the key file is missing and every fallible step
succeeds. -/
def envKeyMissing : SSLEnv :=
  { fs := fsCertOnly, loadOk := true, genOk := true, parseOk := true,
    certWriteOk := true, keyWriteOk := true }

/-- An environment where the key file is missing and writing the generated
certificate to disk fails. -/
def envWriteFail : SSLEnv :=
  { fs := fsCertOnly, loadOk := true, genOk := true, parseOk := true,
    certWriteOk := false, keyWriteOk := true }

end Gomoose


namespace Gomoose

/-! ## Theorems -/

/-- Claim C1 (counterexample): the guard does not block exactly the requests
whose normalized absolute resolution equals the active key's location.
Serving `/a/b` with the key at `/a/b/cert.key`, the request `/b/cert.key`
resolves to `/a/b/b/cert.key`, a different file with the same base name, yet
the guard answers not-found because the cleaned request path is a string
suffix of the blocked path. -/
theorem guard_blocks_nonmatching_resolution :
    ¬ (protectedFileHandler "/a/b/cert.key" "/b/cert.key" = .notFound ↔
       resolvedRequestPath "/a/b" "/b/cert.key" = "/a/b/cert.key") := by
  decide

/-- Claim C1 (amended): for every request path and non-empty active key
absolute path, the guarded handler responds not-found exactly when the
cleaned request path is a literal string suffix of the key's absolute path,
and otherwise delegates to the underlying static-file handler; in particular
every request whose cleaned rooted form names the key when the key sits
directly under some directory (so including traversal spellings such as
`/a/../cert.key` against a key at the served root) is blocked. -/
theorem guard_blocks_iff_cleaned_suffix (blocked req : String) (hb : blocked ≠ "") :
    (protectedFileHandler blocked req = .notFound ↔
      (filepathClean req).data <:+ blocked.data)
    ∧ (∀ root f : String, blocked = root ++ "/" ++ f →
        filepathClean req = "/" ++ f →
        protectedFileHandler blocked req = .notFound) := by
  have hbne : (blocked != "") = true := by simpa using hb
  have hiff : protectedFileHandler blocked req = .notFound ↔
      (filepathClean req).data <:+ blocked.data := by
    unfold protectedFileHandler hasSuffix
    rw [hbne, Bool.true_and]
    cases hsuf : (filepathClean req).data.isSuffixOf blocked.data
    · constructor
      · intro h; simp [hsuf] at h
      · intro h
        rw [List.isSuffixOf_iff_suffix.mpr h] at hsuf
        cases hsuf
    · simp only [if_pos rfl]
      exact ⟨fun _ => List.isSuffixOf_iff_suffix.mp hsuf, fun _ => rfl⟩
  refine ⟨hiff, fun root f hbl hclean => hiff.mpr ?_⟩
  rw [hclean, hbl]
  simp only [String.data_append, List.append_assoc]
  exact List.suffix_append _ _

/-- Claim C1 (witness): the amended statement instantiated at the key
`/a/cert.key` and the traversal request `/x/../cert.key`. -/
theorem guard_blocks_iff_cleaned_suffix_witness :
    ("/a/cert.key" : String) ≠ "" ∧
    ((protectedFileHandler "/a/cert.key" "/x/../cert.key" = .notFound ↔
        (filepathClean "/x/../cert.key").data <:+ ("/a/cert.key" : String).data)
      ∧ (∀ root f : String, ("/a/cert.key" : String) = root ++ "/" ++ f →
          filepathClean "/x/../cert.key" = "/" ++ f →
          protectedFileHandler "/a/cert.key" "/x/../cert.key" = .notFound)) :=
  ⟨by decide, guard_blocks_iff_cleaned_suffix "/a/cert.key" "/x/../cert.key" (by decide)⟩

/-- Claim C2: the provisioning step uses the on-disk pair exactly when both
the cert path and the key path are regular files (a directory at either path
counts as missing), and whenever either is missing, generation succeeding, it
serves a generated in-memory identity rather than failing — absence alone is
never fatal. -/
theorem provisioning_loads_iff_both_regular (cfg : Config) (env : SSLEnv)
    (hg : env.genOk = true) (hp : env.parseOk = true) :
    ((fileExists env.fs cfg.sslCert && fileExists env.fs cfg.sslKey) = true ↔
      (env.fs cfg.sslCert = .regular ∧ env.fs cfg.sslKey = .regular))
    ∧ (¬(env.fs cfg.sslCert = .regular ∧ env.fs cfg.sslKey = .regular) →
        ∃ w a, runSSL cfg env = .serving .generated w a) := by
  have hiff : (fileExists env.fs cfg.sslCert && fileExists env.fs cfg.sslKey) = true ↔
      (env.fs cfg.sslCert = .regular ∧ env.fs cfg.sslKey = .regular) := by
    unfold fileExists
    cases h1 : env.fs cfg.sslCert <;> cases h2 : env.fs cfg.sslKey <;> simp
  refine ⟨hiff, fun hmiss => ?_⟩
  have hcond : (fileExists env.fs cfg.sslCert && fileExists env.fs cfg.sslKey) = false := by
    cases hc : (fileExists env.fs cfg.sslCert && fileExists env.fs cfg.sslKey)
    · rfl
    · exact absurd (hiff.mp hc) hmiss
  cases hs : cfg.saveKeys
  · exact ⟨0, [], by simp [runSSL, hcond, hg, hp, hs]⟩
  · exact ⟨(if env.certWriteOk then 0 else 1) + (if env.keyWriteOk then 0 else 1),
      [⟨cfg.sslCert, 0o644⟩, ⟨cfg.sslKey, 0o600⟩],
      by simp [runSSL, hcond, hg, hp, hs]⟩

/-- Claim C2 (witness): with the default configuration and the key file
missing, the provisioning step generates rather than loads and startup
reaches a serving state. -/
theorem provisioning_loads_iff_both_regular_witness :
    envKeyMissing.genOk = true ∧ envKeyMissing.parseOk = true ∧
    (((fileExists envKeyMissing.fs cfgDefault.sslCert &&
          fileExists envKeyMissing.fs cfgDefault.sslKey) = true ↔
        (envKeyMissing.fs cfgDefault.sslCert = .regular ∧
          envKeyMissing.fs cfgDefault.sslKey = .regular))
      ∧ (¬(envKeyMissing.fs cfgDefault.sslCert = .regular ∧
            envKeyMissing.fs cfgDefault.sslKey = .regular) →
          ∃ w a, runSSL cfgDefault envKeyMissing = .serving .generated w a)) :=
  ⟨rfl, rfl, provisioning_loads_iff_both_regular cfgDefault envKeyMissing rfl rfl⟩

/-- Claim C3: when both cert and key files exist as regular files but fail to
load as a matching PEM pair, startup aborts with the load error and the
provisioner never falls back to serving a generated identity. -/
theorem load_failure_is_fatal (cfg : Config) (env : SSLEnv)
    (hc : env.fs cfg.sslCert = .regular) (hk : env.fs cfg.sslKey = .regular)
    (hl : env.loadOk = false) :
    runSSL cfg env = .fatalLoadError ∧
      ∀ w a, runSSL cfg env ≠ .serving .generated w a := by
  have hrun : runSSL cfg env = .fatalLoadError := by
    simp [runSSL, fileExists, hc, hk, hl]
  exact ⟨hrun, fun w a h => by rw [hrun] at h; cases h⟩

/-- Claim C3 (witness): the fatal-load statement instantiated at the default
configuration with both files present and a failing load. -/
theorem load_failure_is_fatal_witness :
    envLoadFail.fs cfgDefault.sslCert = .regular ∧
    envLoadFail.fs cfgDefault.sslKey = .regular ∧
    envLoadFail.loadOk = false ∧
    (runSSL cfgDefault envLoadFail = .fatalLoadError ∧
      ∀ w a, runSSL cfgDefault envLoadFail ≠ .serving .generated w a) :=
  ⟨rfl, rfl, rfl, load_failure_is_fatal cfgDefault envLoadFail rfl rfl rfl⟩

/-- Claim C4: with an empty blocked path handed to the guard, every request
is delegated unchanged to the underlying static-file handler — the guard
never blocks. -/
theorem guard_empty_key_delegates (req : String) :
    protectedFileHandler "" req = .delegate := rfl

/-- Claim C5: every synthesized identity is a P-256 key pair with a
certificate whose serial number lies in the `2 ^ 128`-value range drawn by
`rand.Int`, whose validity runs from the generation instant to exactly 365
days later, and which carries DNS name `localhost`, key usage digital
signature and key encipherment, extended key usage server authentication,
the fixed organization label, valid basic constraints with CA unset, and is
encoded as `CERTIFICATE` and `EC PRIVATE KEY` PEM blocks. -/
theorem generated_identity_fields (rk rs now : Nat) :
    (generateSelfSignedCert rk rs now).curveName = "P-256"
    ∧ (generateSelfSignedCert rk rs now).cert.serialNumber < 2 ^ 128
    ∧ (generateSelfSignedCert rk rs now).cert.notBefore = now
    ∧ (generateSelfSignedCert rk rs now).cert.notAfter = now + 365 * nanosPerDay
    ∧ (generateSelfSignedCert rk rs now).cert.subjectOrganization = ["Gomoose Self-Signed"]
    ∧ (generateSelfSignedCert rk rs now).cert.keyUsage =
        (keyUsageDigitalSignature ||| keyUsageKeyEncipherment)
    ∧ (generateSelfSignedCert rk rs now).cert.extKeyUsage = [extKeyUsageServerAuth]
    ∧ (generateSelfSignedCert rk rs now).cert.basicConstraintsValid = true
    ∧ (generateSelfSignedCert rk rs now).cert.isCA = false
    ∧ (generateSelfSignedCert rk rs now).cert.dnsNames = ["localhost"]
    ∧ (generateSelfSignedCert rk rs now).certPEMBlockType = "CERTIFICATE"
    ∧ (generateSelfSignedCert rk rs now).keyPEMBlockType = "EC PRIVATE KEY" := by
  refine ⟨rfl, ?_, rfl, rfl, rfl, by rw [Nat.lor_comm]; rfl, rfl, rfl, rfl, rfl, rfl, rfl⟩
  exact Nat.mod_lt _ (by positivity)

/-- Claim C6: on the generation path with persistence requested, the cert is
written to the cert path with mode 0644 and the key to the key path with
mode 0600; with persistence off, no file writes are attempted. -/
theorem persistence_write_modes (cfg : Config) (env : SSLEnv)
    (hmiss : (fileExists env.fs cfg.sslCert && fileExists env.fs cfg.sslKey) = false)
    (hg : env.genOk = true) (hp : env.parseOk = true) :
    (cfg.saveKeys = true → ∃ w, runSSL cfg env =
        .serving .generated w [⟨cfg.sslCert, 0o644⟩, ⟨cfg.sslKey, 0o600⟩])
    ∧ (cfg.saveKeys = false → runSSL cfg env = .serving .generated 0 []) := by
  constructor
  · intro hs
    exact ⟨(if env.certWriteOk then 0 else 1) + (if env.keyWriteOk then 0 else 1),
      by simp [runSSL, hmiss, hg, hp, hs]⟩
  · intro hs; simp [runSSL, hmiss, hg, hp, hs]

/-- Claim C6 (witness): the persistence statement instantiated at the
`-savekeys` configuration with the key file missing. -/
theorem persistence_write_modes_witness :
    (fileExists envKeyMissing.fs cfgSave.sslCert &&
      fileExists envKeyMissing.fs cfgSave.sslKey) = false ∧
    envKeyMissing.genOk = true ∧ envKeyMissing.parseOk = true ∧
    ((cfgSave.saveKeys = true → ∃ w, runSSL cfgSave envKeyMissing =
        .serving .generated w [⟨cfgSave.sslCert, 0o644⟩, ⟨cfgSave.sslKey, 0o600⟩])
      ∧ (cfgSave.saveKeys = false →
          runSSL cfgSave envKeyMissing = .serving .generated 0 [])) :=
  ⟨by decide, rfl, rfl, persistence_write_modes cfgSave envKeyMissing (by decide) rfl rfl⟩

/-- Claim C7: a failure writing the freshly generated certificate or key to
disk does not abort startup: the run still reaches the serving state with
the in-memory generated identity, and at least one warning is logged. -/
theorem persistence_failure_nonfatal (cfg : Config) (env : SSLEnv)
    (hmiss : (fileExists env.fs cfg.sslCert && fileExists env.fs cfg.sslKey) = false)
    (hg : env.genOk = true) (hp : env.parseOk = true)
    (hs : cfg.saveKeys = true)
    (hfail : env.certWriteOk = false ∨ env.keyWriteOk = false) :
    ∃ w a, runSSL cfg env = .serving .generated w a ∧ 1 ≤ w := by
  refine ⟨(if env.certWriteOk then 0 else 1) + (if env.keyWriteOk then 0 else 1),
    [⟨cfg.sslCert, 0o644⟩, ⟨cfg.sslKey, 0o600⟩],
    by simp [runSSL, hmiss, hg, hp, hs], ?_⟩
  rcases hfail with h | h
  · rw [h]; simp
  · rw [h]; simp

/-- Claim C7 (witness): the non-fatal-write statement instantiated at the
`-savekeys` configuration with the certificate write failing. -/
theorem persistence_failure_nonfatal_witness :
    (fileExists envWriteFail.fs cfgSave.sslCert &&
      fileExists envWriteFail.fs cfgSave.sslKey) = false ∧
    envWriteFail.genOk = true ∧ envWriteFail.parseOk = true ∧
    cfgSave.saveKeys = true ∧
    (envWriteFail.certWriteOk = false ∨ envWriteFail.keyWriteOk = false) ∧
    (∃ w a, runSSL cfgSave envWriteFail = .serving .generated w a ∧ 1 ≤ w) :=
  ⟨by decide, rfl, rfl, rfl, Or.inl rfl,
    persistence_failure_nonfatal cfgSave envWriteFail (by decide) rfl rfl rfl (Or.inl rfl)⟩

/-- Claim C8 (counterexample): in the embedding, where the entropy drawn by a
generation call is an explicit input, unconditional distinctness of any two
invocations is false — two calls given the same entropy yield the same
serial number (and the same key material). -/
theorem generation_collision_on_equal_entropy :
    ¬ (∀ rk1 rs1 t1 rk2 rs2 t2 : Nat,
        (generateSelfSignedCert rk1 rs1 t1).cert.serialNumber ≠
            (generateSelfSignedCert rk2 rs2 t2).cert.serialNumber ∧
          (generateSelfSignedCert rk1 rs1 t1).privateKeyMaterial ≠
            (generateSelfSignedCert rk2 rs2 t2).privateKeyMaterial) :=
  fun h => (h 0 0 0 0 0 0).1 rfl

/-- Claim C8 (amended): two invocations of the synthesis operation whose
random draws differ — distinct serial draws within `rand.Int`'s `2 ^ 128`
range and distinct key material — produce certificates with distinct serial
numbers and distinct private keys; the generator never introduces a
collision that was not already present in the entropy. -/
theorem generation_distinct_on_distinct_entropy (rk1 rs1 t1 rk2 rs2 t2 : Nat)
    (hs1 : rs1 < 2 ^ 128) (hs2 : rs2 < 2 ^ 128)
    (hserial : rs1 ≠ rs2) (hkey : rk1 ≠ rk2) :
    (generateSelfSignedCert rk1 rs1 t1).cert.serialNumber ≠
        (generateSelfSignedCert rk2 rs2 t2).cert.serialNumber
    ∧ (generateSelfSignedCert rk1 rs1 t1).privateKeyMaterial ≠
        (generateSelfSignedCert rk2 rs2 t2).privateKeyMaterial := by
  constructor
  · show rs1 % 2 ^ 128 ≠ rs2 % 2 ^ 128
    rw [Nat.mod_eq_of_lt hs1, Nat.mod_eq_of_lt hs2]
    exact hserial
  · exact hkey

/-- Claim C8 (witness): the distinctness statement instantiated at two calls
with entropy 0 and 1. -/
theorem generation_distinct_on_distinct_entropy_witness :
    0 < 2 ^ 128 ∧ 1 < 2 ^ 128 ∧ (0 : Nat) ≠ 1 ∧
    ((generateSelfSignedCert 0 0 0).cert.serialNumber ≠
        (generateSelfSignedCert 1 1 0).cert.serialNumber
      ∧ (generateSelfSignedCert 0 0 0).privateKeyMaterial ≠
        (generateSelfSignedCert 1 1 0).privateKeyMaterial) :=
  ⟨by positivity, by norm_num, by decide,
    generation_distinct_on_distinct_entropy 0 0 0 1 1 0
      (by positivity) (by norm_num) (by decide) (by decide)⟩

/-- Claim C9: after validation, HTTPS is enabled exactly when `-nossl` is not
set and the SSL port is positive, and setting `-nossl` also forces the SSL
port to 0. -/
theorem validate_https_enablement (c : Config) :
    ((c.validate).useSSL = true ↔ (c.noSSL = false ∧ c.sslPort > 0))
    ∧ (c.noSSL = true → (c.validate).sslPort = 0) := by
  cases hn : c.noSSL <;> simp [Config.validate, hn]

/-- Claim C10: with HTTPS enabled, the blocked-file reference is set to the
key's absolute path exactly when that path has the served directory's
absolute path as a plain string prefix — with no directory-boundary check,
so serving `/srv` with the key at `/srv2/cert.key` still activates the
guard — and with HTTPS disabled the reference is always empty. -/
theorem guard_activation_plain_string_match (cwd absDir sslKey : String)
    (habs : isAbs absDir = true) :
    computeBlockedFile false cwd absDir sslKey = ""
    ∧ ( hasPrefix (guardKeyPath cwd absDir sslKey) absDir = true →
        computeBlockedFile true cwd absDir sslKey = guardKeyPath cwd absDir sslKey)
    ∧ ( hasPrefix (guardKeyPath cwd absDir sslKey) absDir = false →
        computeBlockedFile true cwd absDir sslKey = "")
    ∧ (computeBlockedFile true cwd absDir sslKey ≠ "" ↔
        hasPrefix (guardKeyPath cwd absDir sslKey) absDir = true)
    ∧ computeBlockedFile true "/" "/srv" "/srv2/cert.key" = "/srv2/cert.key" := by
  have hne : hasPrefix (guardKeyPath cwd absDir sslKey) absDir = true →
      guardKeyPath cwd absDir sslKey ≠ "" := by
    intro hp he
    rw [he] at hp
    unfold hasPrefix at hp
    have hpre := List.isPrefixOf_iff_prefix.mp hp
    have hnil : absDir.data = [] := by simpa using hpre
    unfold isAbs at habs
    rw [hnil] at habs
    cases habs
  refine ⟨rfl, ?_, ?_, ?_, by decide⟩
  · intro hp; simp [computeBlockedFile, hp]
  · intro hp; simp [computeBlockedFile, hp]
  · cases hp : hasPrefix (guardKeyPath cwd absDir sslKey) absDir
    · simp [computeBlockedFile, hp]
    · simp [computeBlockedFile, hp]
      exact hne hp

/-- Claim C10 (witness): the guard-activation statement instantiated at the
sibling-directory example, serving `/srv` with the key at `/srv2/cert.key`. -/
theorem guard_activation_plain_string_match_witness :
    isAbs "/srv" = true ∧
    (computeBlockedFile false "/" "/srv" "/srv2/cert.key" = ""
      ∧ ( hasPrefix (guardKeyPath "/" "/srv" "/srv2/cert.key") "/srv" = true →
          computeBlockedFile true "/" "/srv" "/srv2/cert.key" =
            guardKeyPath "/" "/srv" "/srv2/cert.key")
      ∧ ( hasPrefix (guardKeyPath "/" "/srv" "/srv2/cert.key") "/srv" = false →
          computeBlockedFile true "/" "/srv" "/srv2/cert.key" = "")
      ∧ (computeBlockedFile true "/" "/srv" "/srv2/cert.key" ≠ "" ↔
          hasPrefix (guardKeyPath "/" "/srv" "/srv2/cert.key") "/srv" = true)
      ∧ computeBlockedFile true "/" "/srv" "/srv2/cert.key" = "/srv2/cert.key") :=
  ⟨rfl, guard_activation_plain_string_match "/" "/srv" "/srv2/cert.key" rfl⟩

end Gomoose
